import Mathlib

/-!
Shallow embedding of the authentication-and-quota core of the
Invoice-Extractor worker (src/src/worker.ts) and of the credential
record emitted by the provisioning tool (src/tools/make-user.mjs).

External JavaScript primitives (WebCrypto PBKDF2, atob validity,
Date parsing) are abstracted as a parameter record JsPrims; all
control flow, field access and comparisons follow worker.ts.
-/

-- js parseInt(s, 10): skip leading whitespace, optional sign, longest
-- digit prefix; no digits gives NaN (modelled as none).  Overflow of
-- astronomically long digit strings to Infinity is not modelled.
def jsWhitespace (c : Char) : Bool :=
  c = ' ' || c = '\t' || c = '\n' || c = '\r'

-- js String.prototype.trim: strip leading and trailing whitespace
def jsTrim (s : String) : String :=
  String.mk (((s.data.dropWhile jsWhitespace).reverse.dropWhile jsWhitespace).reverse)

def digitsVal (l : List Char) : Nat :=
  l.foldl (fun a c => a * 10 + (c.toNat - 48)) 0

def jsParseInt (s : String) : Option Int :=
  let t := s.data.dropWhile jsWhitespace
  match t with
  | '-' :: r =>
      let ds := r.takeWhile Char.isDigit
      if ds.isEmpty then none else some (-(digitsVal ds : Int))
  | '+' :: r =>
      let ds := r.takeWhile Char.isDigit
      if ds.isEmpty then none else some (digitsVal ds : Int)
  | r =>
      let ds := r.takeWhile Char.isDigit
      if ds.isEmpty then none else some (digitsVal ds : Int)

-- worker.ts line 108-111 constants
def SESSION_TTL_SECONDS : Int := 60 * 60 * 24 * 30

def TRIAL_LIMIT : Int := 3

def TRIAL_COOKIE_MAX_AGE : Int := 60 * 60 * 24 * 7

-- worker.ts line 131-135: readTrialCookie.  The cookie value is the
-- already-decoded "trial" cookie (none when the header lacks it).
-- parseInt(v || "0", 10) : null or empty string falls back to "0".
def readTrialCookie (v : Option String) : Int :=
  let s := match v with
    | none => "0"
    | some str => if str = "" then "0" else str
  match jsParseInt s with
  | some n => n
  | none => 0

-- worker.ts line 136-138
def trialExceeded (n : Int) : Bool := decide (TRIAL_LIMIT ≤ n)

-- worker.ts line 226: const newCount = used + 1
def trialIncrement (n : Int) : Int := n + 1

-- Session record stored under "session:" ++ token (worker.ts line 117, 122)
structure SessionRecord where
  username : String
  exp : Int
  roles : Option (List String) := none
deriving Repr, DecidableEq

-- worker.ts line 113-118: getSession (empty token is falsy in js)
def getSession (store : String → Option SessionRecord) (token : Option String) :
    Option SessionRecord :=
  match token with
  | none => none
  | some t => if t = "" then none else store ("session:" ++ t)

-- worker.ts line 119-126: createSession writes the record and returns
-- the expiry; the fresh random token is passed in as a parameter.
def createSession (store : String → Option SessionRecord) (nowSec : Int)
    (username : String) (roles : List String) (token : String) :
    (String → Option SessionRecord) × Int :=
  let exp := nowSec + SESSION_TTL_SECONDS
  (fun k => if k = "session:" ++ token then
      some { username := username, exp := exp, roles := some roles }
    else store k, exp)

structure SetCookie where
  name : String
  value : String
  maxAge : Option Int := none
deriving Repr, DecidableEq

inductive GuardResult where
  | session (username : String) (roles : List String)
  | trial (newCount : Int) (cookie : SetCookie)
  | exhausted
deriving Repr, DecidableEq

-- worker.ts line 219-233: the fall-through trial branch of guardExtract
def guardTrialPath (trialCookieVal : Option String) : GuardResult :=
  let used := readTrialCookie trialCookieVal
  if trialExceeded used then GuardResult.exhausted
  else GuardResult.trial (trialIncrement used)
    { name := "trial", value := toString (trialIncrement used),
      maxAge := some TRIAL_COOKIE_MAX_AGE }

-- worker.ts line 209-234: guardExtract (sess.exp > now, seconds clock)
def guardExtract (store : String → Option SessionRecord) (sessToken : Option String)
    (nowSec : Int) (trialCookieVal : Option String) : GuardResult :=
  match getSession store sessToken with
  | some sess =>
      if nowSec < sess.exp then GuardResult.session sess.username (sess.roles.getD [])
      else guardTrialPath trialCookieVal
  | none => guardTrialPath trialCookieVal

structure ExtractResponse where
  status : Nat
  error : Option String := none
  body : Option String := none
  trialCookie : Option SetCookie := none
  calledUpstream : Bool := false
deriving Repr, DecidableEq

-- worker.ts line 301-322 plus the router catch (line 352-354): imgs is
-- the number of images_dataurl entries; upstream models extractWithGPT
-- (Except.error is a throw, converted by the router to a 500 without
-- the guard headers).  bad(...) responses never carry extraHeaders, so
-- every non-200 response has no trial cookie.
def handleExtract (store : String → Option SessionRecord) (sessToken : Option String)
    (nowSec : Int) (trialCookieVal : Option String) (imgs : Nat)
    (upstream : Except String String) : ExtractResponse :=
  match guardExtract store sessToken nowSec trialCookieVal with
  | GuardResult.exhausted => { status := 429, error := some "trial_exhausted" }
  | GuardResult.session _ _ =>
      if imgs > 10 then { status := 400, error := some "too_many_pages" }
      else match upstream with
        | Except.ok j => { status := 200, body := some j, calledUpstream := true }
        | Except.error _ => { status := 500, error := some "server_error", calledUpstream := true }
  | GuardResult.trial _ cookie =>
      if imgs > 1 then { status := 403, error := some "trial_one_page_only" }
      else if imgs > 10 then { status := 400, error := some "too_many_pages" }
      else match upstream with
        | Except.ok j =>
            { status := 200, body := some j, trialCookie := some cookie, calledUpstream := true }
        | Except.error _ => { status := 500, error := some "server_error", calledUpstream := true }

-- User credential record as stored in KV under "user:" ++ username.
-- Fields cover both what the worker login reads (salt, hash,
-- iterations, expires, roles) and what make-user.mjs writes (role,
-- quota, expires, status, hash); absent JSON fields are none.
structure UserDoc where
  username : String
  hash : String
  salt : Option String := none
  iterations : Option Nat := none
  expires : Option String := none
  roles : Option (List String) := none
  role : Option String := none
  status : Option String := none
  quotaMaxPages : Option Nat := none
  quotaMaxFiles : Option Nat := none
deriving Repr, DecidableEq

-- Abstracted JavaScript platform primitives.
-- pbkdf2 password saltB64 iterations : the base64 PBKDF2-SHA256 digest
--   (worker.ts hashPasswordPBKDF2 happy path and the node pbkdf2Sync of
--   make-user.mjs compute the same derivation).
-- validB64 s : whether atob accepts s (atob throws on invalid input).
-- parseDateMs s : new Date(s).getTime() in ms, none when NaN.
structure JsPrims where
  pbkdf2 : String → String → Nat → String
  validB64 : String → Bool
  parseDateMs : String → Option Int

-- worker.ts line 86-97: the salt and iterations fields are read off the
-- stored doc; when either is absent (undefined), atob or deriveBits
-- throws, modelled as none.  atob("undefined") throws since the string
-- coerced from undefined is not valid base64.
def hashPasswordPBKDF2 (P : JsPrims) (password : String)
    (saltB64 : Option String) (iterations : Option Nat) : Option String :=
  match saltB64, iterations with
  | some s, some it => if P.validB64 s then some (P.pbkdf2 password s it) else none
  | _, _ => none

-- worker.ts line 157: if (doc.expires && new Date(doc.expires).getTime() < Date.now())
-- empty string is falsy; NaN < now is false.
def isExpired (P : JsPrims) (expires : Option String) (nowMs : Int) : Bool :=
  match expires with
  | none => false
  | some s =>
      if s = "" then false
      else match P.parseDateMs s with
        | some t => decide (t < nowMs)
        | none => false

structure LoginBody where
  username : Option String := none
  password : Option String := none
deriving Repr, DecidableEq

inductive LoginBodyOut where
  | success (username : String)
  | errorCode (code : String)
  | exceptionMessage
deriving Repr, DecidableEq

structure LoginResponse where
  status : Nat
  body : LoginBodyOut
  sessionWrite : Option (String × SessionRecord) := none
  cookies : List SetCookie := []
deriving Repr, DecidableEq

-- worker.ts line 143-188: handleLogin.  body none models a request
-- whose json() call throws (caught, 400 with the exception message);
-- freshToken models b64Random(24), nowMs is Date.now().  On success the
-- two Set-Cookie values of line 169-184 are recorded in order.
def handleLogin (P : JsPrims) (nowMs : Int) (users : String → Option UserDoc)
    (freshToken : String) (body : Option LoginBody) : LoginResponse :=
  match body with
  | none => { status := 400, body := LoginBodyOut.exceptionMessage }
  | some b =>
    let username := jsTrim (b.username.getD "")
    let password := b.password.getD ""
    if username = "" ∨ password = "" then
      { status := 400, body := LoginBodyOut.errorCode "username and password are required" }
    else
      match users ("user:" ++ username) with
      | none => { status := 401, body := LoginBodyOut.errorCode "invalid_credentials" }
      | some doc =>
        if isExpired P doc.expires nowMs then
          { status := 403, body := LoginBodyOut.errorCode "account_expired" }
        else
          match hashPasswordPBKDF2 P password doc.salt doc.iterations with
          | none => { status := 400, body := LoginBodyOut.exceptionMessage }
          | some derived =>
            if derived ≠ doc.hash then
              { status := 401, body := LoginBodyOut.errorCode "invalid_credentials" }
            else
              { status := 200, body := LoginBodyOut.success username,
                sessionWrite := some ("session:" ++ freshToken,
                  { username := username, exp := nowMs / 1000 + SESSION_TTL_SECONDS,
                    roles := some (doc.roles.getD []) }),
                cookies := [ { name := "sess", value := freshToken,
                               maxAge := some SESSION_TTL_SECONDS },
                             { name := "trial", value := "0", maxAge := some 0 } ] }

-- tools/make-user.mjs line 23-39: the record the provisioning tool
-- prints for storage under user:<username>.  It stores one combined
-- string hash = pbkdf2$sha256$120000$<saltB64>$<keyB64> and has no
-- separate salt or iterations fields.
def makeUserRec (P : JsPrims) (username password role : String)
    (maxPages maxFiles : Nat) (expires saltB64 : String) : UserDoc :=
  { username := username,
    role := some role,
    quotaMaxPages := some maxPages,
    quotaMaxFiles := some maxFiles,
    expires := some expires,
    status := some "active",
    hash := "pbkdf2$sha256$120000$" ++ saltB64 ++ "$" ++ P.pbkdf2 password saltB64 120000 }

-- Concrete platform instantiation used by the closed witness theorems:
-- a stand-in derivation function (injective in its inputs for the
-- strings used) and a Date parser mapping every date string to the
-- epoch of 2099-12-31.
def P0 : JsPrims :=
  { pbkdf2 := fun password salt iterations =>
      password ++ ":" ++ salt ++ ":" ++ toString iterations,
    validB64 := fun _ => true,
    parseDateMs := fun _ => some 4102444800000 }

-- Shared helper lemmas about the guard.

lemma guardExtract_no_session (store : String → Option SessionRecord)
    (sessToken : Option String) (nowSec : Int) (tc : Option String)
    (hsess : ∀ s, getSession store sessToken = some s → ¬ nowSec < s.exp) :
    guardExtract store sessToken nowSec tc = guardTrialPath tc := by
  cases hg : getSession store sessToken with
  | none => simp [guardExtract, hg]
  | some s => simp [guardExtract, hg, hsess s hg]

lemma guardExtract_none_token (store : String → Option SessionRecord) (nowSec : Int)
    (tc : Option String) :
    guardExtract store none nowSec tc = guardTrialPath tc := by
  simp [guardExtract, getSession]

lemma guardTrialPath_not_exceeded (tc : Option String)
    (h : readTrialCookie tc < TRIAL_LIMIT) :
    guardTrialPath tc = GuardResult.trial (trialIncrement (readTrialCookie tc))
      { name := "trial", value := toString (trialIncrement (readTrialCookie tc)),
        maxAge := some TRIAL_COOKIE_MAX_AGE } := by
  have hex : trialExceeded (readTrialCookie tc) = false := by
    simp only [trialExceeded, decide_eq_false_iff_not]
    omega
  simp [guardTrialPath, hex]

lemma guardTrialPath_exceeded (tc : Option String)
    (h : TRIAL_LIMIT ≤ readTrialCookie tc) :
    guardTrialPath tc = GuardResult.exhausted := by
  have hex : trialExceeded (readTrialCookie tc) = true := by
    simp only [trialExceeded, decide_eq_true_eq]
    exact h
  simp [guardTrialPath, hex]

/-- C3 counterexample: the trial counter read is not always
non-negative.  A trial cookie holding the string -1 is parsed by
parseInt to the negative integer -1, which readTrialCookie returns
unchanged. -/
theorem readTrialCookie_negative_counterexample :
    readTrialCookie (some "-1") = -1 ∧ ¬ (0 ≤ readTrialCookie (some "-1")) := by
  decide

/-- C3 amended: the trial counter read returns an integer, possibly
negative; when the cookie is absent, empty, or not parseable as an
integer it returns exactly 0. -/
theorem readTrialCookie_default_zero :
    readTrialCookie none = 0 ∧ readTrialCookie (some "") = 0 ∧
    (∀ s : String, jsParseInt s = none → readTrialCookie (some s) = 0) := by
  refine ⟨by decide, by decide, ?_⟩
  intro s hs
  by_cases h : s = ""
  · subst h
    decide
  · unfold readTrialCookie
    simp [h, hs]

/-- Witness for the amended C3 theorem at the concrete malformed cookie
value x. -/
theorem readTrialCookie_default_zero_witness :
    jsParseInt "x" = none ∧ readTrialCookie (some "x") = 0 :=
  ⟨by decide, readTrialCookie_default_zero.2.2 "x" (by decide)⟩

/-- C6: trialExceeded is true exactly for counts at least 3; reading an
absent cookie gives 0, incrementing three times reaches a count that is
exceeded, and 0, 1, 2 are not exceeded. -/
theorem trialExceeded_spec :
    (∀ n : Int, trialExceeded n = true ↔ TRIAL_LIMIT ≤ n) ∧
    readTrialCookie none = 0 ∧
    trialExceeded (trialIncrement (trialIncrement (trialIncrement (readTrialCookie none)))) = true ∧
    trialExceeded 0 = false ∧ trialExceeded 1 = false ∧ trialExceeded 2 = false := by
  refine ⟨?_, by decide, by decide, by decide, by decide, by decide⟩
  intro n
  simp [trialExceeded]

/-- C4 counterexample: an unauthenticated extract request with 2 images
and a trial count of 3 is rejected with 429 trial_exhausted, not with
403 trial_one_page_only as the claim states. -/
theorem exhausted_trial_two_images_counterexample :
    handleExtract (fun _ => none) none 0 (some "3") 2 (Except.ok "j") =
      { status := 429, error := some "trial_exhausted" } ∧
    (handleExtract (fun _ => none) none 0 (some "3") 2 (Except.ok "j")).status ≠ 403 ∧
    (handleExtract (fun _ => none) none 0 (some "3") 2 (Except.ok "j")).error ≠
      some "trial_one_page_only" := by
  decide

/-- C4 amended: an unauthenticated extract request with 2 or more
images is always rejected, but the exhaustion check runs first: below
the limit the response is 403 trial_one_page_only, at or above the
limit it is 429 trial_exhausted; neither response mutates the trial
cookie. -/
theorem unauth_multi_image_rejection
    (store : String → Option SessionRecord) (sessToken : Option String) (nowSec : Int)
    (tc : Option String) (imgs : Nat) (upstream : Except String String)
    (hsess : ∀ s, getSession store sessToken = some s → ¬ nowSec < s.exp)
    (himgs : 2 ≤ imgs) :
    (readTrialCookie tc < TRIAL_LIMIT →
      handleExtract store sessToken nowSec tc imgs upstream =
        { status := 403, error := some "trial_one_page_only" }) ∧
    (TRIAL_LIMIT ≤ readTrialCookie tc →
      handleExtract store sessToken nowSec tc imgs upstream =
        { status := 429, error := some "trial_exhausted" }) := by
  have hguard := guardExtract_no_session store sessToken nowSec tc hsess
  have h1 : imgs > 1 := himgs
  constructor
  · intro hlt
    rw [guardTrialPath_not_exceeded tc hlt] at hguard
    simp [handleExtract, hguard, h1]
  · intro hge
    rw [guardTrialPath_exceeded tc hge] at hguard
    simp [handleExtract, hguard]

/-- Witness for the amended C4 theorem: fresh trial, 2 images gives
403 trial_one_page_only. -/
theorem unauth_multi_image_rejection_witness :
    handleExtract (fun _ => none) none 0 (some "0") 2 (Except.ok "j") =
      { status := 403, error := some "trial_one_page_only" } :=
  (unauth_multi_image_rejection (fun _ => none) none 0 (some "0") 2 (Except.ok "j")
    (fun s h => by simp [getSession] at h) (by decide)).1 (by decide)

/-- C5 counterexample: an extract request with 11 images in trial mode
is rejected with 403 trial_one_page_only, not with 400 too_many_pages
as the claim states for every mode; no upstream call is attempted. -/
theorem trial_eleven_images_counterexample :
    handleExtract (fun _ => none) none 0 none 11 (Except.ok "j") =
      { status := 403, error := some "trial_one_page_only" } ∧
    (handleExtract (fun _ => none) none 0 none 11 (Except.ok "j")).status ≠ 400 ∧
    (handleExtract (fun _ => none) none 0 none 11 (Except.ok "j")).error ≠
      some "too_many_pages" ∧
    (handleExtract (fun _ => none) none 0 none 11 (Except.ok "j")).calledUpstream = false := by
  decide

/-- C5 amended: an extract request with 11 or more images never reaches
the upstream call and never succeeds; with a valid session the response
is 400 too_many_pages, while without one the trial checks fire first,
giving 403 trial_one_page_only or 429 trial_exhausted. -/
theorem eleven_images_no_upstream
    (store : String → Option SessionRecord) (sessToken : Option String) (nowSec : Int)
    (tc : Option String) (imgs : Nat) (upstream : Except String String)
    (himgs : 11 ≤ imgs) :
    (handleExtract store sessToken nowSec tc imgs upstream).calledUpstream = false ∧
    (handleExtract store sessToken nowSec tc imgs upstream).status ≠ 200 ∧
    (∀ s, getSession store sessToken = some s → nowSec < s.exp →
      handleExtract store sessToken nowSec tc imgs upstream =
        { status := 400, error := some "too_many_pages" }) ∧
    ((∀ s, getSession store sessToken = some s → ¬ nowSec < s.exp) →
      handleExtract store sessToken nowSec tc imgs upstream =
        { status := 403, error := some "trial_one_page_only" } ∨
      handleExtract store sessToken nowSec tc imgs upstream =
        { status := 429, error := some "trial_exhausted" }) := by
  have h10 : imgs > 10 := himgs
  have h1 : imgs > 1 := by omega
  have htrial : (∀ s, getSession store sessToken = some s → ¬ nowSec < s.exp) →
      handleExtract store sessToken nowSec tc imgs upstream =
        { status := 403, error := some "trial_one_page_only" } ∨
      handleExtract store sessToken nowSec tc imgs upstream =
        { status := 429, error := some "trial_exhausted" } := by
    intro hsess
    have hguard := guardExtract_no_session store sessToken nowSec tc hsess
    by_cases hex : TRIAL_LIMIT ≤ readTrialCookie tc
    · right
      rw [guardTrialPath_exceeded tc hex] at hguard
      simp [handleExtract, hguard]
    · left
      push_neg at hex
      rw [guardTrialPath_not_exceeded tc hex] at hguard
      simp [handleExtract, hguard, h1]
  have hsessEq : ∀ s, getSession store sessToken = some s → nowSec < s.exp →
      handleExtract store sessToken nowSec tc imgs upstream =
        { status := 400, error := some "too_many_pages" } := by
    intro s hg hv
    simp [handleExtract, guardExtract, hg, hv, h10]
  by_cases hvalid : ∃ s, getSession store sessToken = some s ∧ nowSec < s.exp
  · obtain ⟨s, hg, hv⟩ := hvalid
    have heq := hsessEq s hg hv
    exact ⟨by simp [heq], by simp [heq], hsessEq, fun hsess => absurd hv (hsess s hg)⟩
  · have hnone : ∀ s, getSession store sessToken = some s → ¬ nowSec < s.exp :=
      fun s hg hv => hvalid ⟨s, hg, hv⟩
    rcases htrial hnone with hcase | hcase
    · exact ⟨by simp [hcase], by simp [hcase],
        fun s hg hv => absurd hv (hnone s hg), fun _ => Or.inl hcase⟩
    · exact ⟨by simp [hcase], by simp [hcase],
        fun s hg hv => absurd hv (hnone s hg), fun _ => Or.inr hcase⟩

def demoSessStore : String → Option SessionRecord :=
  fun k => if k = "session:tok" then
    some { username := "alice", exp := 100, roles := some [] }
  else none

/-- Witness for the amended C5 theorem: a valid session and 11 images
give 400 too_many_pages. -/
theorem eleven_images_no_upstream_witness :
    handleExtract demoSessStore (some "tok") 0 none 11 (Except.ok "j") =
      { status := 400, error := some "too_many_pages" } :=
  ((eleven_images_no_upstream demoSessStore (some "tok") 0 none 11 (Except.ok "j")
      (by decide)).2.2.1 { username := "alice", exp := 100, roles := some [] }
    (by decide) (by decide))

/-- C8 counterexample: a trial request that the guard allows (fresh
trial count 0, one image, so the guard answers trial mode with the
incremented cookie) but whose upstream extraction call fails is
answered 500 by the router catch, which drops the guard headers: the
upstream call was attempted, yet the response carries no trial cookie,
refuting the claim that every allowed trial request mutates the
outgoing trial token. -/
theorem trial_upstream_failure_counterexample :
    guardExtract (fun _ => none) none 0 none =
      GuardResult.trial 1
        { name := "trial", value := "1", maxAge := some TRIAL_COOKIE_MAX_AGE } ∧
    (handleExtract (fun _ => none) none 0 none 1 (Except.error "boom")).calledUpstream = true ∧
    (handleExtract (fun _ => none) none 0 none 1 (Except.error "boom")).status = 500 ∧
    (handleExtract (fun _ => none) none 0 none 1 (Except.error "boom")).trialCookie = none := by
  decide

/-- C8 amended: for a request decided in trial mode, the response
mutates the outgoing trial cookie exactly when the request succeeds: a
200 response carries a fresh trial cookie holding the incoming count
plus one with a 7 day Max-Age, and every non-200 response, including
the guard rejections and the 500 produced when the upstream call
fails, carries no trial cookie at all. -/
theorem trial_cookie_mutation_iff_success
    (store : String → Option SessionRecord) (sessToken : Option String) (nowSec : Int)
    (tc : Option String) (imgs : Nat) (upstream : Except String String)
    (hsess : ∀ s, getSession store sessToken = some s → ¬ nowSec < s.exp) :
    ((handleExtract store sessToken nowSec tc imgs upstream).status ≠ 200 →
      (handleExtract store sessToken nowSec tc imgs upstream).trialCookie = none) ∧
    ((handleExtract store sessToken nowSec tc imgs upstream).status = 200 →
      (handleExtract store sessToken nowSec tc imgs upstream).trialCookie =
        some { name := "trial", value := toString (trialIncrement (readTrialCookie tc)),
               maxAge := some TRIAL_COOKIE_MAX_AGE }) := by
  have hguard := guardExtract_no_session store sessToken nowSec tc hsess
  by_cases hex : TRIAL_LIMIT ≤ readTrialCookie tc
  · rw [guardTrialPath_exceeded tc hex] at hguard
    simp [handleExtract, hguard]
  · push_neg at hex
    rw [guardTrialPath_not_exceeded tc hex] at hguard
    by_cases h1 : imgs > 1
    · simp [handleExtract, hguard, h1]
    · have h10 : ¬ imgs > 10 := by omega
      cases upstream with
      | ok j => simp [handleExtract, hguard, h1, h10]
      | error e => simp [handleExtract, hguard, h1, h10]

/-- Witness for the amended C8 theorem: a fresh trial caller with 1
image succeeds and the response carries the trial cookie incremented
from 0 to 1. -/
theorem trial_cookie_mutation_iff_success_witness :
    (handleExtract (fun _ => none) none 0 none 1 (Except.ok "j")).status = 200 ∧
    (handleExtract (fun _ => none) none 0 none 1 (Except.ok "j")).trialCookie =
      some { name := "trial", value := toString (trialIncrement (readTrialCookie none)),
             maxAge := some TRIAL_COOKIE_MAX_AGE } :=
  ⟨by decide,
    (trial_cookie_mutation_iff_success (fun _ => none) none 0 none 1 (Except.ok "j")
      (fun s h => by simp [getSession] at h)).2 (by decide)⟩

/-- C7: a session created by createSession is retrievable under its
token with the same username and roles, and the guard authorizes it, at
every instant strictly before its expiration; at or after that instant
the record is still physically in the store but the guard behaves
exactly as if no session token had been presented. -/
theorem createSession_lookup_guard
    (store : String → Option SessionRecord) (nowSec : Int) (username : String)
    (roles : List String) (token : String) (tc : Option String) (htok : token ≠ "") :
    (∀ t : Int, t < (createSession store nowSec username roles token).2 →
      getSession (createSession store nowSec username roles token).1 (some token) =
        some { username := username, exp := (createSession store nowSec username roles token).2,
               roles := some roles } ∧
      guardExtract (createSession store nowSec username roles token).1 (some token) t tc =
        GuardResult.session username roles) ∧
    (∀ t : Int, (createSession store nowSec username roles token).2 ≤ t →
      getSession (createSession store nowSec username roles token).1 (some token) =
        some { username := username, exp := (createSession store nowSec username roles token).2,
               roles := some roles } ∧
      guardExtract (createSession store nowSec username roles token).1 (some token) t tc =
        guardExtract (createSession store nowSec username roles token).1 none t tc) := by
  have hget : getSession (createSession store nowSec username roles token).1 (some token) =
      some { username := username, exp := nowSec + SESSION_TTL_SECONDS, roles := some roles } := by
    simp [getSession, createSession, htok]
  have hexp : (createSession store nowSec username roles token).2 =
      nowSec + SESSION_TTL_SECONDS := rfl
  constructor
  · intro t ht
    rw [hexp] at ht
    refine ⟨by rw [hget, hexp], ?_⟩
    simp [guardExtract, hget, ht]
  · intro t ht
    rw [hexp] at ht
    have hnl : ¬ t < nowSec + SESSION_TTL_SECONDS := by omega
    refine ⟨by rw [hget, hexp], ?_⟩
    rw [guardExtract_none_token]
    simp [guardExtract, hget, hnl]

/-- Witness for C7: a concrete created session is authorized by the
guard before its expiry. -/
theorem createSession_lookup_guard_witness :
    guardExtract (createSession (fun _ => none) 0 "alice" ["admin"] "tok").1
      (some "tok") 5 none = GuardResult.session "alice" ["admin"] :=
  ((createSession_lookup_guard (fun _ => none) 0 "alice" ["admin"] "tok" none
    (by decide)).1 5 (by decide)).2

/-- C1: a credential record of exactly the shape make-user.mjs emits
(combined pbkdf2 hash string, no separate salt or iterations fields)
never logs in, even with the correct password on a non-expired active
account: the PBKDF2 derivation reads the absent salt and iterations
fields and throws, so the handler answers 400 with no session and no
cookies, contradicting the claimed 200. -/
theorem makeUser_record_login_fails
    (P : JsPrims) (nowMs : Int) (users : String → Option UserDoc) (freshToken : String)
    (username password role expStr saltB64 : String) (maxPages maxFiles : Nat)
    (hu : jsTrim username = username) (hu2 : username ≠ "") (hp : password ≠ "")
    (hstore : users ("user:" ++ username) =
      some (makeUserRec P username password role maxPages maxFiles expStr saltB64))
    (hexp : isExpired P (some expStr) nowMs = false) :
    handleLogin P nowMs users freshToken
      (some { username := some username, password := some password }) =
      { status := 400, body := LoginBodyOut.exceptionMessage } := by
  simp [handleLogin, hu, hu2, hp, hstore, makeUserRec, hashPasswordPBKDF2, hexp]

def makeUserStore : String → Option UserDoc :=
  fun k => if k = "user:alice" then
    some (makeUserRec P0 "alice" "secret" "user" 10 100 "2099-12-31" "c2FsdA")
  else none

/-- Witness for C1: the concrete provisioned record for alice with the
correct password secret is rejected with 400. -/
theorem makeUser_record_login_fails_witness :
    handleLogin P0 1700000000000 makeUserStore "tok"
      (some { username := some "alice", password := some "secret" }) =
      { status := 400, body := LoginBodyOut.exceptionMessage } :=
  makeUser_record_login_fails P0 1700000000000 makeUserStore "tok"
    "alice" "secret" "user" "2099-12-31" "c2FsdA" 10 100
    (by decide) (by decide) (by decide) (by decide) (by decide)

/-- C2: the login handler never reads the status field, so a credential
record whose status is disabled but whose salt, hash and iterations
fields are well formed authenticates with the correct password: the
response is 200 and a session record is written. -/
theorem disabled_record_still_authenticates
    (P : JsPrims) (nowMs : Int) (users : String → Option UserDoc) (freshToken : String)
    (u pw s : String)
    (hu : jsTrim u = u) (hu2 : u ≠ "") (hp : pw ≠ "") (hs : P.validB64 s = true)
    (hstore : users ("user:" ++ u) =
      some { username := u, hash := P.pbkdf2 pw s 120000, salt := some s,
             iterations := some 120000, status := some "disabled" }) :
    (handleLogin P nowMs users freshToken
      (some { username := some u, password := some pw })).status = 200 ∧
    (handleLogin P nowMs users freshToken
      (some { username := some u, password := some pw })).sessionWrite =
      some ("session:" ++ freshToken,
        { username := u, exp := nowMs / 1000 + SESSION_TTL_SECONDS, roles := some [] }) := by
  constructor
  · simp [handleLogin, hu, hu2, hp, hstore, isExpired, hashPasswordPBKDF2, hs]
  · simp [handleLogin, hu, hu2, hp, hstore, isExpired, hashPasswordPBKDF2, hs]

def disabledStore : String → Option UserDoc :=
  fun k => if k = "user:dave" then
    some { username := "dave", hash := P0.pbkdf2 "pw123" "c2FsdA" 120000,
           salt := some "c2FsdA", iterations := some 120000, status := some "disabled" }
  else none

/-- Witness for C2: the concrete disabled record for dave logs in with
its correct password. -/
theorem disabled_record_still_authenticates_witness :
    (handleLogin P0 0 disabledStore "tok"
      (some { username := some "dave", password := some "pw123" })).status = 200 :=
  (disabled_record_still_authenticates P0 0 disabledStore "tok" "dave" "pw123" "c2FsdA"
    (by decide) (by decide) (by decide) (by decide) (by decide)).1

/-- C9: a login naming an unknown username and a login naming an
existing, non-expired account with a wrong password produce identical
responses: status 401, body invalid_credentials, no session write, no
cookies. -/
theorem login_uniform_invalid_credentials
    (P : JsPrims) (nowMs : Int) (users : String → Option UserDoc) (freshToken : String)
    (u1 pw1 u2 pw2 : String) (doc : UserDoc) (d : String)
    (h1u : jsTrim u1 ≠ "") (h1p : pw1 ≠ "")
    (h2u : jsTrim u2 ≠ "") (h2p : pw2 ≠ "")
    (habsent : users ("user:" ++ jsTrim u1) = none)
    (hdoc : users ("user:" ++ jsTrim u2) = some doc)
    (hexp : isExpired P doc.expires nowMs = false)
    (hder : hashPasswordPBKDF2 P pw2 doc.salt doc.iterations = some d)
    (hwrong : d ≠ doc.hash) :
    handleLogin P nowMs users freshToken
      (some { username := some u1, password := some pw1 }) =
      { status := 401, body := LoginBodyOut.errorCode "invalid_credentials" } ∧
    handleLogin P nowMs users freshToken
      (some { username := some u2, password := some pw2 }) =
      { status := 401, body := LoginBodyOut.errorCode "invalid_credentials" } := by
  constructor
  · simp [handleLogin, h1u, h1p, habsent]
  · simp [handleLogin, h2u, h2p, hdoc, hexp, hder, hwrong]

def demoUsers : String → Option UserDoc :=
  fun k => if k = "user:bob" then
    some { username := "bob", hash := P0.pbkdf2 "correcthorse" "c2FsdA" 120000,
           salt := some "c2FsdA", iterations := some 120000 }
  else none

/-- Witness for C9: an unknown user alice and user bob with a wrong
password get the same 401 invalid_credentials response. -/
theorem login_uniform_invalid_credentials_witness :
    handleLogin P0 0 demoUsers "tok"
      (some { username := some "alice", password := some "x" }) =
      { status := 401, body := LoginBodyOut.errorCode "invalid_credentials" } ∧
    handleLogin P0 0 demoUsers "tok"
      (some { username := some "bob", password := some "wrongpw" }) =
      { status := 401, body := LoginBodyOut.errorCode "invalid_credentials" } :=
  login_uniform_invalid_credentials P0 0 demoUsers "tok" "alice" "x" "bob" "wrongpw"
    { username := "bob", hash := P0.pbkdf2 "correcthorse" "c2FsdA" 120000,
      salt := some "c2FsdA", iterations := some 120000 }
    (P0.pbkdf2 "wrongpw" "c2FsdA" 120000)
    (by decide) (by decide) (by decide) (by decide) (by decide) (by decide)
    (by decide) (by decide) (by decide)

/-- C10: login is atomic on failure: whenever the response status is
not 200, no session record is written and no Set-Cookie value is
attached. -/
theorem login_failure_atomic
    (P : JsPrims) (nowMs : Int) (users : String → Option UserDoc) (freshToken : String)
    (body : Option LoginBody)
    (hfail : (handleLogin P nowMs users freshToken body).status ≠ 200) :
    (handleLogin P nowMs users freshToken body).sessionWrite = none ∧
    (handleLogin P nowMs users freshToken body).cookies = [] := by
  cases body with
  | none => exact ⟨rfl, rfl⟩
  | some b =>
    by_cases hempty : jsTrim (b.username.getD "") = "" ∨ b.password.getD "" = ""
    · simp [handleLogin, hempty]
    · cases hu : users ("user:" ++ jsTrim (b.username.getD "")) with
      | none => simp [handleLogin, hempty, hu]
      | some doc =>
        by_cases hexp : isExpired P doc.expires nowMs
        · simp [handleLogin, hempty, hu, hexp]
        · cases hd : hashPasswordPBKDF2 P (b.password.getD "") doc.salt doc.iterations with
          | none => simp [handleLogin, hempty, hu, hexp, hd]
          | some derived =>
            by_cases hw : derived = doc.hash
            · exfalso
              apply hfail
              simp [handleLogin, hempty, hu, hexp, hd, hw]
            · simp [handleLogin, hempty, hu, hexp, hd, hw]

/-- Witness for C10: a request whose body fails to parse gets a 400 and
leaves the session store and cookies untouched. -/
theorem login_failure_atomic_witness :
    (handleLogin P0 0 (fun _ => none) "t" none).sessionWrite = none ∧
    (handleLogin P0 0 (fun _ => none) "t" none).cookies = [] :=
  login_failure_atomic P0 0 (fun _ => none) "t" none (by decide)
